import Mathlib

/-!
Shallow embedding of `otel_fastapi_link_middleware` (single source file
`src/otel_fastapi_link_middleware/__init__.py`): an ASGI middleware that,
when an inbound request carries a `traceparent` header, renames and
annotates the currently active span, starts a fresh root span carrying the
original name, copies the attributes over, cross-links the two spans and
runs the downstream app inside the new span's scope.

Python values are modelled as follows: header bytes become `String`s,
span attributes become association lists with Python-dict update
semantics, the OpenTelemetry id generator becomes an explicit fresh-id
supply threaded through the state, `hasattr(span, "name")` becomes a
Boolean field, and the SDK-internal `_attributes` mapping (whose absence
makes `_copy_span_attributes` raise `AttributeError`) becomes an optional
capability flag.  Each middleware run additionally emits a list of events
so that invocation counts and the ordering of mutations are observable.
-/

/-- Attribute values: the scalars the middleware actually writes. -/
inductive AttrValue where
  | boolV : Bool → AttrValue
  | strV : String → AttrValue
  | intV : Int → AttrValue
deriving DecidableEq, Repr

/-- An OpenTelemetry span context: (trace-id, span-id) pair. -/
structure SpanContext where
  traceId : Nat
  spanId : Nat
deriving DecidableEq, Repr

/-- `SpanContext.is_valid` from the OTel API: both ids non-zero. -/
def SpanContext.is_valid (c : SpanContext) : Bool :=
  decide (c.traceId ≠ 0) && decide (c.spanId ≠ 0)

/-- Python-dict assignment `d[k] = v` on an association list: overwrite
the (unique, under the dict invariant) existing binding in place,
otherwise append at the end. -/
def setAttrList : List (String × AttrValue) → String → AttrValue → List (String × AttrValue)
  | [], k, v => [(k, v)]
  | p :: rest, k, v => if p.1 = k then (k, v) :: rest else p :: setAttrList rest k v

/-- Python-dict lookup `d.get(k)` on an association list. -/
def getAttr : List (String × AttrValue) → String → Option AttrValue
  | [], _ => none
  | p :: rest, k => if p.1 = k then some p.2 else getAttr rest k

/-- A span, as much of it as the middleware touches.  `hasName` models
whether `hasattr(span, "name")` holds (false for the SDK's
`NonRecordingSpan`); `hasAttrStore` models whether the SDK-internal
`_attributes` mapping exists (false for non-SDK span implementations,
where reading it raises `AttributeError`). -/
structure Span where
  hasName : Bool
  name : String
  hasAttrStore : Bool
  attrs : List (String × AttrValue)
  links : List SpanContext
  ctx : SpanContext
  ended : Bool
deriving DecidableEq, Repr

/-- `span.set_attribute(k, v)`: writes into the attribute store when one
exists; a no-op on spans without one (`NonRecordingSpan` discards
attribute writes; non-SDK spans store them outside `_attributes`). -/
def Span.set_attribute (s : Span) (k : String) (v : AttrValue) : Span :=
  if s.hasAttrStore then { s with attrs := setAttrList s.attrs k v } else s

/-- `span.update_name(n)`. -/
def Span.update_name (s : Span) (n : String) : Span :=
  { s with name := n }

/-- `span.add_link(ctx)` per the SDK: links with an invalid context (and
no attributes) are dropped, otherwise the link is recorded. -/
def Span.add_link (s : Span) (c : SpanContext) : Span :=
  if c.is_valid then { s with links := s.links ++ [c] } else s

/-- An ASGI scope, restricted to what the middleware reads:
`scope["type"]`, `scope["headers"]` (a list of key/value pairs, bytes
modelled as strings) and `scope.get("path", "")`. -/
structure Scope where
  type : String
  headers : List (String × String)
  path : String
deriving DecidableEq, Repr

/-- `dict(scope["headers"]).get(k)`: building a Python dict from a pair
list keeps, for each key, the value of its **last** occurrence. -/
def dictGet (hs : List (String × String)) (k : String) : Option String :=
  hs.foldl (fun acc p => if p.1 = k then some p.2 else acc) none

/-- The decision gate of `LinkedTraceMiddleware.__call__`: splice iff the
scope is http and `dict(scope["headers"]).get(b"traceparent")` is truthy
(present with a non-empty value). -/
def should_link (scope : Scope) : Bool :=
  scope.type = "http" &&
    (match dictGet scope.headers "traceparent" with
     | some v => decide (v ≠ "")
     | none => false)

/-- Observable events of one middleware run, in order. -/
inductive Event where
  | setAttrE : String → AttrValue → Event
  | renameE : String → Event
  | startSpanE : String → List SpanContext → Event
  | copyAttrsE : Event
  | addLinkE : SpanContext → Event
  | handlerE : SpanContext → Event
  | raiseE : String → Event
  | endSpanE : Event
deriving DecidableEq, Repr

/-- Tracing-runtime state the middleware sees: the currently active span
and the id generator's next fresh trace/span ids. -/
structure MwState where
  active : Span
  nextTraceId : Nat
  nextSpanId : Nat
deriving DecidableEq, Repr

/-- Result of one middleware run: the emitted events, the active span's
final state, the spans created by the middleware (in creation order) and
the error, if any, that propagates to the host. -/
structure RunResult where
  events : List Event
  finalActive : Span
  newSpans : List Span
  error : Option String
deriving DecidableEq, Repr

/-- `_copy_span_attributes(src, dest)`: iterates the SDK-internal
`src._attributes` mapping, calling `dest.set_attribute` on each item;
raises `AttributeError` when `src` has no `_attributes`. -/
def _copy_span_attributes (src dest : Span) : Except String Span :=
  if src.hasAttrStore then
    .ok (src.attrs.foldl (fun d p => d.set_attribute p.1 p.2) dest)
  else
    .error "AttributeError"

/-- `LinkedTraceMiddleware._link_trace`, line by line.  `handlerErr`
models the downstream app's outcome (`none` = returns, `some e` = raises
`e`); the handler-invocation event records the ambient span's context. -/
def _link_trace (st : MwState) (scope : Scope) (handlerErr : Option String) : RunResult :=
  let parent_ctx := st.active.ctx
  let current_span := st.active
  if ¬ current_span.hasName then
    { events := [.handlerE current_span.ctx], finalActive := current_span,
      newSpans := [], error := handlerErr }
  else
    let span_name := current_span.name
    let new_name := "LinkedApiSpan"
    let s1 := current_span.set_attribute "linked_trace" (.boolV true)
    let s2 := s1.set_attribute "url.path" (.strV ("" ++ scope.path))
    let s3 := s2.update_name new_name
    let childCtx : SpanContext := ⟨st.nextTraceId, st.nextSpanId⟩
    let fwdLinks := if parent_ctx.is_valid then [parent_ctx] else []
    let child0 : Span :=
      { hasName := true, name := span_name, hasAttrStore := true,
        attrs := [], links := fwdLinks, ctx := childCtx, ended := false }
    let evPre : List Event :=
      [.setAttrE "linked_trace" (.boolV true),
       .setAttrE "url.path" (.strV ("" ++ scope.path)),
       .renameE new_name,
       .startSpanE span_name fwdLinks]
    match _copy_span_attributes s3 child0 with
    | .error e =>
        { events := evPre ++ [.raiseE e, .endSpanE],
          finalActive := s3, newSpans := [{ child0 with ended := true }],
          error := some e }
    | .ok child1 =>
        let s4 := s3.add_link childCtx
        { events := evPre ++ [.copyAttrsE, .addLinkE childCtx,
                              .handlerE childCtx, .endSpanE],
          finalActive := s4, newSpans := [{ child1 with ended := true }],
          error := handlerErr }

/-- `LinkedTraceMiddleware.__call__`: the decision gate, then either
plain delegation or `_link_trace`. -/
def middleware_call (st : MwState) (scope : Scope) (handlerErr : Option String) : RunResult :=
  if should_link scope then _link_trace st scope handlerErr
  else
    { events := [.handlerE st.active.ctx], finalActive := st.active,
      newSpans := [], error := handlerErr }

/-- Modelled from the spec: the bare wrapped application without the
middleware installed — the handler runs exactly once under the span that
was already active, no span is created and nothing is mutated.  Used as
the reference point of the pass-through equivalence claim. -/
def bare_app (st : MwState) (handlerErr : Option String) : RunResult :=
  { events := [.handlerE st.active.ctx], finalActive := st.active,
    newSpans := [], error := handlerErr }

/-! Sample concrete inputs used by witnesses and counterexamples. -/

/-- A typical SDK-recording active span, as the FastAPI instrumentation
would create it. -/
def exSpan : Span :=
  { hasName := true, name := "GET /orders", hasAttrStore := true,
    attrs := [("http.method", AttrValue.strV "GET")], links := [],
    ctx := ⟨3, 4⟩, ended := false }

/-- A typical runtime state around `exSpan`. -/
def exState : MwState := ⟨exSpan, 10, 11⟩

/-- A typical http scope carrying a `traceparent` header. -/
def exScope : Scope := ⟨"http", [("traceparent", "00-aa-bb-01")], "/orders"⟩

/-- Active span already named with the sentinel name. -/
def exSentinelState : MwState := ⟨{ exSpan with name := "LinkedApiSpan" }, 10, 11⟩

/-- Active span whose pre-existing attributes clash with the middleware's
reserved keys. -/
def exClashState : MwState :=
  ⟨{ exSpan with attrs := [("linked_trace", AttrValue.boolV false)] }, 10, 11⟩

/-- Active span with an invalid (zero trace-id) context. -/
def exInvalidCtxState : MwState := ⟨{ exSpan with ctx := ⟨0, 4⟩ }, 10, 11⟩

/-- Active span exposing a name but no SDK-internal attribute store. -/
def exNoStoreState : MwState := ⟨{ exSpan with hasAttrStore := false }, 10, 11⟩

/-- A no-op active span: no readable name. -/
def exNoNameState : MwState := ⟨{ exSpan with hasName := false }, 10, 11⟩

/-- Discriminator for rename events. -/
def isRename : Event → Bool
  | .renameE _ => true
  | _ => false

/-- Discriminator for handler-invocation events. -/
def isHandler : Event → Bool
  | .handlerE _ => true
  | _ => false

/-! Helper lemmas. -/

/-- Assigning a key absent from the list appends the binding. -/
theorem setAttrList_of_not_mem (a : List (String × AttrValue)) (k : String) (v : AttrValue)
    (h : ∀ q ∈ a, q.1 ≠ k) : setAttrList a k v = a ++ [(k, v)] := by
  induction a with
  | nil => rfl
  | cons q a ih =>
    have hq : q.1 ≠ k := h q (by simp)
    simp only [setAttrList, if_neg hq, List.cons_append, List.cons.injEq, true_and]
    exact ih fun p hp => h p (by simp [hp])

/-- Lookup of a different key is unchanged by an assignment. -/
theorem getAttr_setAttrList_ne (a : List (String × AttrValue)) (k k' : String) (v : AttrValue)
    (h : k' ≠ k) : getAttr (setAttrList a k v) k' = getAttr a k' := by
  induction a with
  | nil => simp [setAttrList, getAttr, if_neg (Ne.symm h)]
  | cons q a ih =>
    by_cases hq : q.1 = k
    · have h1 : ¬ (k = k') := fun hh => h hh.symm
      have h2 : ¬ (q.1 = k') := by rw [hq]; exact h1
      simp only [setAttrList, if_pos hq, getAttr, if_neg h1, if_neg h2]
    · simp only [setAttrList, if_neg hq, getAttr, ih]

/-- Keys of an assignment result: the new key or an old key. -/
theorem mem_keys_setAttrList (a : List (String × AttrValue)) (k x : String) (v : AttrValue)
    (hx : x ∈ (setAttrList a k v).map Prod.fst) : x = k ∨ x ∈ a.map Prod.fst := by
  induction a with
  | nil => simpa [setAttrList] using hx
  | cons q a ih =>
    by_cases hq : q.1 = k
    · simp only [setAttrList, if_pos hq, List.map_cons, List.mem_cons] at hx
      rcases hx with hx | hx
      · exact Or.inl hx
      · exact Or.inr (by simp [hx])
    · simp only [setAttrList, if_neg hq, List.map_cons, List.mem_cons] at hx
      rcases hx with hx | hx
      · exact Or.inr (by simp [hx])
      · rcases ih hx with hx' | hx'
        · exact Or.inl hx'
        · exact Or.inr (by simp [hx'])

/-- Assignment preserves the dict invariant (no duplicate keys). -/
theorem keys_nodup_setAttrList (a : List (String × AttrValue)) (k : String) (v : AttrValue)
    (h : (a.map Prod.fst).Nodup) : ((setAttrList a k v).map Prod.fst).Nodup := by
  induction a with
  | nil => simp [setAttrList]
  | cons q a ih =>
    rw [List.map_cons, List.nodup_cons] at h
    by_cases hq : q.1 = k
    · simpa [setAttrList, if_pos hq, List.nodup_cons, ← hq] using h
    · have h2 := ih h.2
      simp only [setAttrList, if_neg hq, List.map_cons, List.nodup_cons]
      refine ⟨fun hmem => ?_, h2⟩
      rcases mem_keys_setAttrList a k q.1 v hmem with h' | h'
      · exact hq h'
      · exact h.1 h'

/-- Folding assignments of fresh, pairwise-distinct keys appends them. -/
theorem foldl_setAttrList_fresh (l : List (String × AttrValue)) :
    ∀ d : List (String × AttrValue), (l.map Prod.fst).Nodup →
      (∀ p ∈ l, ∀ q ∈ d, p.1 ≠ q.1) →
      l.foldl (fun a p => setAttrList a p.1 p.2) d = d ++ l := by
  induction l with
  | nil => intro d _ _; simp
  | cons p l ih =>
    intro d h1 h2
    rw [List.map_cons, List.nodup_cons] at h1
    have hset : setAttrList d p.1 p.2 = d ++ [p] := by
      rw [setAttrList_of_not_mem d p.1 p.2
        (fun q hq => Ne.symm (h2 p (by simp) q hq))]
    have hrest : ∀ r ∈ l, ∀ q ∈ d ++ [p], r.1 ≠ q.1 := by
      intro r hr q hq
      rcases List.mem_append.mp hq with hq | hq
      · exact h2 r (by simp [hr]) q hq
      · rw [List.mem_singleton.mp hq]
        intro hcon
        exact h1.1 (hcon ▸ List.mem_map_of_mem Prod.fst hr)
    calc (p :: l).foldl (fun a p => setAttrList a p.1 p.2) d
        = l.foldl (fun a p => setAttrList a p.1 p.2) (d ++ [p]) := by
          rw [List.foldl_cons, hset]
      _ = (d ++ [p]) ++ l := ih (d ++ [p]) h1.2 hrest
      _ = d ++ p :: l := by simp

/-- A fold of `set_attribute` over a span with an attribute store only
changes the attribute list. -/
theorem foldl_set_attribute (l : List (String × AttrValue)) :
    ∀ dest : Span, dest.hasAttrStore = true →
      l.foldl (fun d p => d.set_attribute p.1 p.2) dest
        = { dest with attrs := l.foldl (fun a p => setAttrList a p.1 p.2) dest.attrs } := by
  induction l with
  | nil => intro dest _; rfl
  | cons p l ih =>
    intro dest hd
    rw [List.foldl_cons, List.foldl_cons]
    rw [show dest.set_attribute p.1 p.2 = { dest with attrs := setAttrList dest.attrs p.1 p.2 }
      from by rw [Span.set_attribute, if_pos hd]]
    exact ih _ hd

/-- `dictGet`-style folds ignore pairs with other keys. -/
theorem foldl_dict_no_key (hs : List (String × String)) (k : String) :
    ∀ acc : Option String, (∀ p ∈ hs, p.1 ≠ k) →
      hs.foldl (fun acc p => if p.1 = k then some p.2 else acc) acc = acc := by
  induction hs with
  | nil => intro acc _; rfl
  | cons p hs ih =>
    intro acc h
    rw [List.foldl_cons, if_neg (h p (by simp))]
    exact ih acc fun q hq => h q (by simp [hq])

/-- The last occurrence of a key decides a Python-dict lookup. -/
theorem dictGet_last (hs1 hs2 : List (String × String)) (k v : String)
    (h : ∀ p ∈ hs2, p.1 ≠ k) : dictGet (hs1 ++ (k, v) :: hs2) k = some v := by
  rw [dictGet, List.foldl_append, List.foldl_cons, if_pos rfl]
  exact foldl_dict_no_key hs2 k (some v) h

/-- A key absent from the bag yields no Python-dict entry. -/
theorem dictGet_none (hs : List (String × String)) (k : String)
    (h : ∀ p ∈ hs, p.1 ≠ k) : dictGet hs k = none :=
  foldl_dict_no_key hs k none h

/-- `set_attribute` on a span with an attribute store, unfolded. -/
theorem set_attribute_of_store (s : Span) (k : String) (v : AttrValue)
    (h : s.hasAttrStore = true) :
    s.set_attribute k v = { s with attrs := setAttrList s.attrs k v } := by
  rw [Span.set_attribute, if_pos h]

/-- `set_attribute` on a span without an attribute store is invisible. -/
theorem set_attribute_no_store (s : Span) (k : String) (v : AttrValue)
    (h : s.hasAttrStore = false) : s.set_attribute k v = s := by
  rw [Span.set_attribute, if_neg (by simp [h])]

/-- The decision gate takes the splice path when it reports true. -/
theorem middleware_call_splice (st : MwState) (scope : Scope) (e : Option String)
    (h : should_link scope = true) :
    middleware_call st scope e = _link_trace st scope e := by
  rw [middleware_call, if_pos h]

/-- The decision gate delegates untouched when it reports false. -/
theorem middleware_call_pass (st : MwState) (scope : Scope) (e : Option String)
    (h : should_link scope = false) :
    middleware_call st scope e
      = { events := [.handlerE st.active.ctx], finalActive := st.active,
          newSpans := [], error := e } := by
  rw [middleware_call, if_neg (by simp [h])]

/-- Splice path, no readable name: plain delegation. -/
theorem link_trace_noname (st : MwState) (scope : Scope) (e : Option String)
    (h : st.active.hasName = false) :
    _link_trace st scope e
      = { events := [.handlerE st.active.ctx], finalActive := st.active,
          newSpans := [], error := e } := by
  rw [_link_trace, if_pos (by simp [h])]

/-- Splice path on an SDK-shaped active span (name and attribute store
both present): the full normal form of one `_link_trace` run. -/
theorem link_trace_ok (st : MwState) (scope : Scope) (e : Option String)
    (hn : st.active.hasName = true) (ha : st.active.hasAttrStore = true) :
    _link_trace st scope e =
      { events := [.setAttrE "linked_trace" (.boolV true),
                   .setAttrE "url.path" (.strV ("" ++ scope.path)),
                   .renameE "LinkedApiSpan",
                   .startSpanE st.active.name
                     (if st.active.ctx.is_valid then [st.active.ctx] else []),
                   .copyAttrsE,
                   .addLinkE ⟨st.nextTraceId, st.nextSpanId⟩,
                   .handlerE ⟨st.nextTraceId, st.nextSpanId⟩,
                   .endSpanE],
        finalActive :=
          Span.add_link
            { st.active with
                name := "LinkedApiSpan",
                attrs := setAttrList (setAttrList st.active.attrs "linked_trace" (.boolV true))
                           "url.path" (.strV ("" ++ scope.path)) }
            ⟨st.nextTraceId, st.nextSpanId⟩,
        newSpans :=
          [{ hasName := true, name := st.active.name, hasAttrStore := true,
             attrs := (setAttrList (setAttrList st.active.attrs "linked_trace" (.boolV true))
                         "url.path" (.strV ("" ++ scope.path))).foldl
                        (fun a p => setAttrList a p.1 p.2) [],
             links := if st.active.ctx.is_valid then [st.active.ctx] else [],
             ctx := ⟨st.nextTraceId, st.nextSpanId⟩, ended := true }],
        error := e } := by
  rw [_link_trace, if_neg (by simp [hn])]
  simp only [set_attribute_of_store, Span.update_name, _copy_span_attributes, ha,
    foldl_set_attribute, if_pos]
  rfl

/-- Splice path on a span with a name but no SDK attribute store: the
attribute copy raises and the error propagates. -/
theorem link_trace_err (st : MwState) (scope : Scope) (e : Option String)
    (hn : st.active.hasName = true) (ha : st.active.hasAttrStore = false) :
    _link_trace st scope e =
      { events := [.setAttrE "linked_trace" (.boolV true),
                   .setAttrE "url.path" (.strV ("" ++ scope.path)),
                   .renameE "LinkedApiSpan",
                   .startSpanE st.active.name
                     (if st.active.ctx.is_valid then [st.active.ctx] else []),
                   .raiseE "AttributeError",
                   .endSpanE],
        finalActive := { st.active with name := "LinkedApiSpan" },
        newSpans :=
          [{ hasName := true, name := st.active.name, hasAttrStore := true,
             attrs := [],
             links := if st.active.ctx.is_valid then [st.active.ctx] else [],
             ctx := ⟨st.nextTraceId, st.nextSpanId⟩, ended := true }],
        error := some "AttributeError" } := by
  rw [_link_trace, if_neg (by simp [hn])]
  simp only [set_attribute_no_store, Span.update_name, _copy_span_attributes, ha,
    Bool.false_eq_true, if_false, if_neg]
  rfl

/-- `add_link` never changes the span's name. -/
theorem add_link_name (s : Span) (c : SpanContext) : (s.add_link c).name = s.name := by
  rw [Span.add_link]; split <;> rfl

/-- `add_link` never changes the span's attributes. -/
theorem add_link_attrs (s : Span) (c : SpanContext) : (s.add_link c).attrs = s.attrs := by
  rw [Span.add_link]; split <;> rfl

/-- The links after `add_link`: appended when the context is valid. -/
theorem add_link_links (s : Span) (c : SpanContext) :
    (s.add_link c).links = if c.is_valid then s.links ++ [c] else s.links := by
  rw [Span.add_link]; split <;> simp_all

/-! Claim theorems. -/

/-- C1: counterexample — when the active span is already named with the
fixed sentinel "LinkedApiSpan", the splice path leaves the post-mutation
name equal to the pre-mutation name, refuting "the active span's
post-mutation name is never equal to its pre-mutation name, for every
possible original span name". -/
theorem C1_counterexample :
    should_link exScope = true ∧ exSentinelState.active.hasName = true ∧
    (middleware_call exSentinelState exScope none).finalActive.name
      = exSentinelState.active.name := by decide

/-- C1 (amended): on every splice-path request (traceparent header
present, active span with a readable name), the new root span's display
name equals the active span's display name captured before the rename,
and the active span's post-mutation name is the fixed sentinel
"LinkedApiSpan" — so it differs from the pre-mutation name exactly when
the original name was not already the sentinel. -/
theorem C1_name_transplant (st : MwState) (scope : Scope) (e : Option String)
    (h1 : should_link scope = true) (h2 : st.active.hasName = true) :
    (middleware_call st scope e).newSpans.map Span.name = [st.active.name] ∧
    (middleware_call st scope e).finalActive.name = "LinkedApiSpan" ∧
    ((middleware_call st scope e).finalActive.name = st.active.name ↔
      st.active.name = "LinkedApiSpan") := by
  rw [middleware_call_splice st scope e h1]
  cases ha : st.active.hasAttrStore with
  | true =>
    rw [link_trace_ok st scope e h2 ha]
    refine ⟨by simp, ?_, ?_⟩
    · rw [add_link_name]
    · rw [add_link_name]
      exact eq_comm
  | false =>
    rw [link_trace_err st scope e h2 ha]
    exact ⟨by simp, rfl, eq_comm⟩

/-- C1 witness: the amended theorem applied to a typical spliced
request. -/
theorem C1_name_transplant_witness :
    should_link exScope = true ∧ exState.active.hasName = true ∧
    ((middleware_call exState exScope none).newSpans.map Span.name = [exState.active.name] ∧
     (middleware_call exState exScope none).finalActive.name = "LinkedApiSpan" ∧
     ((middleware_call exState exScope none).finalActive.name = exState.active.name ↔
       exState.active.name = "LinkedApiSpan")) :=
  ⟨by decide, by decide, C1_name_transplant exState exScope none (by decide) (by decide)⟩

/-- C4: pass-through — a request without a traceparent header, or a
non-http scope, is processed identically to the bare wrapped app:
handler invoked exactly once under the already-active span, zero spans
created, zero mutations. -/
theorem C4_pass_through (st : MwState) (scope : Scope) (e : Option String)
    (h : scope.type ≠ "http" ∨ dictGet scope.headers "traceparent" = none) :
    middleware_call st scope e = bare_app st e := by
  have hf : should_link scope = false := by
    rcases h with h | h
    · simp [should_link, h]
    · simp [should_link, h]
  rw [middleware_call_pass st scope e hf, bare_app]

/-- C4 witness: headerless http request. -/
theorem C4_pass_through_witness :
    ((Scope.mk "http" [("accept", "text/html")] "/x").type ≠ "http" ∨
      dictGet (Scope.mk "http" [("accept", "text/html")] "/x").headers "traceparent" = none) ∧
    middleware_call exState (Scope.mk "http" [("accept", "text/html")] "/x") none
      = bare_app exState none :=
  ⟨Or.inr (by decide),
   C4_pass_through exState (Scope.mk "http" [("accept", "text/html")] "/x") none
     (Or.inr (by decide))⟩

/-- C6: exception transparency — on the splice path over an SDK-shaped
active span, when the downstream handler raises, the same error
surfaces to the host and every span created by the middleware has been
ended through the managed-scope exit. -/
theorem C6_exception_transparency (st : MwState) (scope : Scope) (e : String)
    (h1 : should_link scope = true) (h2 : st.active.hasName = true)
    (h3 : st.active.hasAttrStore = true) :
    (middleware_call st scope (some e)).error = some e ∧
    ∀ s ∈ (middleware_call st scope (some e)).newSpans, s.ended = true := by
  rw [middleware_call_splice st scope (some e) h1, link_trace_ok st scope (some e) h2 h3]
  refine ⟨rfl, ?_⟩
  intro s hs
  simp only [List.mem_singleton] at hs
  rw [hs]

/-- C6 witness: a raising handler on a typical spliced request. -/
theorem C6_exception_transparency_witness :
    should_link exScope = true ∧ exState.active.hasName = true ∧
    ((middleware_call exState exScope (some "boom")).error = some "boom" ∧
     ∀ s ∈ (middleware_call exState exScope (some "boom")).newSpans, s.ended = true) :=
  ⟨by decide, by decide,
   C6_exception_transparency exState exScope "boom" (by decide) (by decide) (by decide)⟩

/-- C7: no-op span degrade — a traceparent-carrying request whose active
span has no readable name is delegated untouched: handler exactly once
under the active span, no span created, no mutation. -/
theorem C7_noop_degrade (st : MwState) (scope : Scope) (e : Option String)
    (h1 : should_link scope = true) (h2 : st.active.hasName = false) :
    middleware_call st scope e
      = { events := [.handlerE st.active.ctx], finalActive := st.active,
          newSpans := [], error := e } := by
  rw [middleware_call_splice st scope e h1, link_trace_noname st scope e h2]

/-- C7 witness: a no-op active span on a spliced request. -/
theorem C7_noop_degrade_witness :
    should_link exScope = true ∧ exNoNameState.active.hasName = false ∧
    middleware_call exNoNameState exScope none
      = { events := [.handlerE exNoNameState.active.ctx],
          finalActive := exNoNameState.active, newSpans := [], error := none } :=
  ⟨by decide, by decide, C7_noop_degrade exNoNameState exScope none (by decide) (by decide)⟩

/-- C9: mutation ordering — on a splice-path run over an SDK-shaped
active span, the full event sequence is: the two attribute writes, then
the rename, then the new span's start, then the attribute copy, then
the reverse link, then the handler invocation, then the managed-scope
end.  In particular the active span's attribute writes and rename occur
strictly before the new span is started, and the new span's start
occurs strictly before the copy, the reverse link and the handler. -/
theorem C9_mutation_ordering (st : MwState) (scope : Scope) (e : Option String)
    (h1 : should_link scope = true) (h2 : st.active.hasName = true)
    (h3 : st.active.hasAttrStore = true) :
    (middleware_call st scope e).events
      = [.setAttrE "linked_trace" (.boolV true),
         .setAttrE "url.path" (.strV ("" ++ scope.path)),
         .renameE "LinkedApiSpan",
         .startSpanE st.active.name
           (if st.active.ctx.is_valid then [st.active.ctx] else []),
         .copyAttrsE,
         .addLinkE ⟨st.nextTraceId, st.nextSpanId⟩,
         .handlerE ⟨st.nextTraceId, st.nextSpanId⟩,
         .endSpanE] := by
  rw [middleware_call_splice st scope e h1, link_trace_ok st scope e h2 h3]

/-- C9 witness: the event sequence of a typical spliced request. -/
theorem C9_mutation_ordering_witness :
    should_link exScope = true ∧ exState.active.hasName = true ∧
    (middleware_call exState exScope none).events
      = [.setAttrE "linked_trace" (.boolV true),
         .setAttrE "url.path" (.strV ("" ++ exScope.path)),
         .renameE "LinkedApiSpan",
         .startSpanE exState.active.name
           (if exState.active.ctx.is_valid then [exState.active.ctx] else []),
         .copyAttrsE,
         .addLinkE ⟨exState.nextTraceId, exState.nextSpanId⟩,
         .handlerE ⟨exState.nextTraceId, exState.nextSpanId⟩,
         .endSpanE] :=
  ⟨by decide, by decide,
   C9_mutation_ordering exState exScope none (by decide) (by decide) (by decide)⟩

/-- C2: counterexample — the new span's attribute set is **not** always a
value-superset of the original span's pre-mutation attribute set: when
the active span already carries `linked_trace` with value `false`, the
middleware overwrites it with `true` before the copy, so the new span
holds a different value for that key. -/
theorem C2_counterexample :
    should_link exScope = true ∧ exClashState.active.hasName = true ∧
    getAttr exClashState.active.attrs "linked_trace" = some (AttrValue.boolV false) ∧
    (middleware_call exClashState exScope none).newSpans.map
        (fun s => getAttr s.attrs "linked_trace")
      = [some (AttrValue.boolV true)] := by decide

/-- C2 (amended): on a splice-path request over an SDK-shaped active span
with a valid context, no pre-existing links and duplicate-free attribute
keys, and with the id generator fresh and non-zero: exactly one new span
exists, its trace-id differs from the original's, it links to the
original's context while the original links back to its context (exactly
two link relations), the original's name is mutated exactly once, and
the new span's attribute set agrees with the original's pre-mutation
attribute set on every key other than the two reserved keys
`linked_trace` and `url.path` that the middleware overwrites. -/
theorem C2_splice_invariant (st : MwState) (scope : Scope) (e : Option String)
    (h1 : should_link scope = true) (h2 : st.active.hasName = true)
    (h3 : st.active.hasAttrStore = true) (h4 : st.active.ctx.is_valid = true)
    (h5 : st.active.links = []) (h6 : (st.active.attrs.map Prod.fst).Nodup)
    (h7 : st.nextTraceId ≠ 0) (h8 : st.nextSpanId ≠ 0)
    (h9 : st.nextTraceId ≠ st.active.ctx.traceId) :
    ∃ c, (middleware_call st scope e).newSpans = [c] ∧
      c.ctx.traceId ≠ st.active.ctx.traceId ∧
      c.links = [st.active.ctx] ∧
      (middleware_call st scope e).finalActive.links = [c.ctx] ∧
      (middleware_call st scope e).events.countP isRename = 1 ∧
      (∀ k v, getAttr st.active.attrs k = some v →
        k ≠ "linked_trace" → k ≠ "url.path" → getAttr c.attrs k = some v) := by
  rw [middleware_call_splice st scope e h1, link_trace_ok st scope e h2 h3]
  refine ⟨_, rfl, h9, ?_, ?_, ?_, ?_⟩
  · simp [h4]
  · rw [add_link_links]
    have hv : (SpanContext.mk st.nextTraceId st.nextSpanId).is_valid = true := by
      simp [SpanContext.is_valid, h7, h8]
    simp [hv, h5]
  · simp [isRename, List.countP_cons]
  · intro k v hk hk1 hk2
    have hd1 := keys_nodup_setAttrList st.active.attrs "linked_trace" (.boolV true) h6
    have hd2 := keys_nodup_setAttrList _ "url.path" (.strV ("" ++ scope.path)) hd1
    rw [foldl_setAttrList_fresh _ [] hd2 (by intro p hp q hq; simp at hq),
      List.nil_append,
      getAttr_setAttrList_ne _ _ _ _ hk2, getAttr_setAttrList_ne _ _ _ _ hk1]
    exact hk

/-- C2 witness: the amended invariant on a typical spliced request. -/
theorem C2_splice_invariant_witness :
    should_link exScope = true ∧ exState.active.ctx.is_valid = true ∧
    (∃ c, (middleware_call exState exScope none).newSpans = [c] ∧
      c.ctx.traceId ≠ exState.active.ctx.traceId ∧
      c.links = [exState.active.ctx] ∧
      (middleware_call exState exScope none).finalActive.links = [c.ctx] ∧
      (middleware_call exState exScope none).events.countP isRename = 1 ∧
      (∀ k v, getAttr exState.active.attrs k = some v →
        k ≠ "linked_trace" → k ≠ "url.path" → getAttr c.attrs k = some v)) :=
  ⟨by decide, by decide,
   C2_splice_invariant exState exScope none (by decide) (by decide) (by decide)
     (by decide) (by decide) (by decide) (by decide) (by decide) (by decide)⟩

/-- C3: counterexample — with an invalid (zero trace-id) captured
context, a link **is** still created in one direction: the original span
receives a reverse link to the new span's context, refuting "no link is
created in either direction". -/
theorem C3_counterexample :
    should_link exScope = true ∧ exInvalidCtxState.active.hasName = true ∧
    exInvalidCtxState.active.ctx.is_valid = false ∧
    (middleware_call exInvalidCtxState exScope none).finalActive.links
      = [⟨10, 11⟩] := by decide

/-- C3 (amended): when the captured context is invalid (zero trace-id),
the new root span is started with **no** outbound link, but the splice
still proceeds — exactly one new span is produced and the handler still
runs — and the original span still gains the reverse link to the new
span's context. -/
theorem C3_invalid_context_splice (st : MwState) (scope : Scope) (e : Option String)
    (h1 : should_link scope = true) (h2 : st.active.hasName = true)
    (h3 : st.active.hasAttrStore = true) (h4 : st.active.ctx.is_valid = false)
    (h7 : st.nextTraceId ≠ 0) (h8 : st.nextSpanId ≠ 0) :
    ∃ c, (middleware_call st scope e).newSpans = [c] ∧
      c.links = [] ∧
      (middleware_call st scope e).finalActive.links = st.active.links ++ [c.ctx] ∧
      (middleware_call st scope e).events.countP isHandler = 1 := by
  rw [middleware_call_splice st scope e h1, link_trace_ok st scope e h2 h3]
  refine ⟨_, rfl, ?_, ?_, ?_⟩
  · simp [h4]
  · rw [add_link_links]
    have hv : (SpanContext.mk st.nextTraceId st.nextSpanId).is_valid = true := by
      simp [SpanContext.is_valid, h7, h8]
    simp [hv]
  · simp [isHandler, List.countP_cons]

/-- C3 witness: the amended behavior on an invalid captured context. -/
theorem C3_invalid_context_splice_witness :
    should_link exScope = true ∧ exInvalidCtxState.active.ctx.is_valid = false ∧
    (∃ c, (middleware_call exInvalidCtxState exScope none).newSpans = [c] ∧
      c.links = [] ∧
      (middleware_call exInvalidCtxState exScope none).finalActive.links
        = exInvalidCtxState.active.links ++ [c.ctx] ∧
      (middleware_call exInvalidCtxState exScope none).events.countP isHandler = 1) :=
  ⟨by decide, by decide,
   C3_invalid_context_splice exInvalidCtxState exScope none (by decide) (by decide)
     (by decide) (by decide) (by decide) (by decide)⟩

/-- C5: counterexample — header detection is **not** case-insensitive in
this component: a bag carrying the header under the casing
`Traceparent` does not trigger the splice path, while the lowercase form
does. -/
theorem C5_counterexample :
    should_link ⟨"http", [("Traceparent", "00-aa-bb-01")], "/orders"⟩ = false ∧
    should_link ⟨"http", [("traceparent", "00-aa-bb-01")], "/orders"⟩ = true := by
  decide

/-- C5 (amended): detection matches the exact lowercase key
`traceparent` only — a bag none of whose keys is exactly that string
(e.g. any other casing) never triggers the splice path, and appending
the exact lowercase key makes the decision equal the truthiness of its
value.  Case-insensitivity is delegated to the ASGI server, which
normalizes header names to lowercase bytes before this component runs. -/
theorem C5_lowercase_exact_match (hs : List (String × String)) (v path : String)
    (h : ∀ p ∈ hs, p.1 ≠ "traceparent") :
    should_link ⟨"http", hs, path⟩ = false ∧
    should_link ⟨"http", hs ++ [("traceparent", v)], path⟩ = decide (v ≠ "") := by
  constructor
  · simp [should_link, dictGet_none hs "traceparent" h]
  · simp only [should_link]
    rw [dictGet_last hs [] "traceparent" v (by simp)]
    simp

/-- C5 witness: a differently-cased bag stays untriggered; the lowercase
key triggers. -/
theorem C5_lowercase_exact_match_witness :
    (∀ p ∈ [("Traceparent", "00-aa-bb-01")], p.1 ≠ "traceparent") ∧
    (should_link ⟨"http", [("Traceparent", "00-aa-bb-01")], "/o"⟩ = false ∧
     should_link ⟨"http", [("Traceparent", "00-aa-bb-01")] ++ [("traceparent", "00-aa-bb-01")], "/o"⟩
       = decide (("00-aa-bb-01" : String) ≠ "")) :=
  ⟨by decide, C5_lowercase_exact_match [("Traceparent", "00-aa-bb-01")] "00-aa-bb-01" "/o"
    (by decide)⟩

/-- C8: counterexample — the middleware is **not** exception-free for
every active-span shape: a span exposing a name but no SDK-internal
attribute store makes the attribute copy raise `AttributeError`, which
propagates to the host, and the downstream handler is never invoked. -/
theorem C8_counterexample :
    should_link exScope = true ∧ exNoStoreState.active.hasName = true ∧
    exNoStoreState.active.hasAttrStore = false ∧
    (middleware_call exNoStoreState exScope none).error = some "AttributeError" ∧
    (middleware_call exNoStoreState exScope none).events.countP isHandler = 0 := by
  decide

/-- C8 (amended): the only span-state failure the middleware guards is a
missing readable name.  Provided every active span that exposes a name
also carries the SDK attribute store, the middleware itself never
raises — the only error surfacing to the host is the handler's own —
and the downstream handler is invoked exactly once, on every request
and every path. -/
theorem C8_never_breaks_given_sdk_span (st : MwState) (scope : Scope) (e : Option String)
    (h : st.active.hasName = true → st.active.hasAttrStore = true) :
    (middleware_call st scope e).error = e ∧
    (middleware_call st scope e).events.countP isHandler = 1 := by
  cases hl : should_link scope with
  | false =>
    rw [middleware_call_pass st scope e hl]
    exact ⟨rfl, by simp [isHandler, List.countP_cons]⟩
  | true =>
    rw [middleware_call_splice st scope e hl]
    cases hn : st.active.hasName with
    | false =>
      rw [link_trace_noname st scope e hn]
      exact ⟨rfl, by simp [isHandler, List.countP_cons]⟩
    | true =>
      rw [link_trace_ok st scope e hn (h hn)]
      exact ⟨rfl, by simp [isHandler, List.countP_cons]⟩

/-- C8 witness: the amended guarantee on a typical spliced request. -/
theorem C8_never_breaks_given_sdk_span_witness :
    (exState.active.hasName = true → exState.active.hasAttrStore = true) ∧
    ((middleware_call exState exScope none).error = none ∧
     (middleware_call exState exScope none).events.countP isHandler = 1) :=
  ⟨fun _ => by decide, C8_never_breaks_given_sdk_span exState exScope none fun _ => by decide⟩

/-- C10: repeated-header resolution — when the header bag ends with a
`traceparent` occurrence carrying value `v` (with no later occurrence of
that key), the splice decision equals the truthiness of `v`, regardless
of any earlier occurrences; in particular a final empty value forces the
pass-through path even when an earlier occurrence was non-empty. -/
theorem C10_last_occurrence (hs1 hs2 : List (String × String)) (v path : String)
    (h : ∀ p ∈ hs2, p.1 ≠ "traceparent") :
    should_link ⟨"http", hs1 ++ ("traceparent", v) :: hs2, path⟩ = decide (v ≠ "") := by
  simp only [should_link]
  rw [dictGet_last hs1 hs2 "traceparent" v h]
  simp

/-- C10 witness: an earlier non-empty occurrence followed by a final
empty occurrence yields the pass-through decision. -/
theorem C10_last_occurrence_witness :
    (∀ p ∈ ([] : List (String × String)), p.1 ≠ "traceparent") ∧
    should_link ⟨"http", [("traceparent", "00-aa-bb-01")] ++ ("traceparent", "") :: [], "/o"⟩
      = decide (("" : String) ≠ "") :=
  ⟨by simp, C10_last_occurrence [("traceparent", "00-aa-bb-01")] [] "" "/o" (by simp)⟩
